import Mathlib

/-!
Verification of the hodmd repository (assess_forecasts.py, linmodel.py,
predictor.py) against its natural-language specification.

The Python sources are shallowly embedded: pure functions become Lean
functions over `ℚ` (modelling the numeric runtime exactly, without
floating-point rounding), raised exceptions become `Except PyErr`, and
NumPy/CVXPY expression algebra is translated into explicit `Finset.range`
sums.  External boundaries (the CityLearn simulation environment, the
pydmd decomposition library, the convex solver) enter as abstract data or
function parameters.
-/

/-- Python exception kinds raised by the embedded code paths. -/
inductive PyErr where
  | valueError
  | nameError
  | assertionError
  | attributeError
  | typeError
  | indexError
deriving DecidableEq

deriving instance DecidableEq for Except

/-- Python list slice `l[a:b]` for integer bounds: negative indices count
from the end, and both bounds are clamped into `[0, len(l)]`. -/
def pySlice (l : List ℚ) (a b : ℤ) : List ℚ :=
  let n : ℤ := l.length
  let norm : ℤ → ℤ := fun i => if i < 0 then max (n + i) 0 else min i n
  (l.drop (norm a).toNat).take ((norm b) - (norm a)).toNat

/-- Python list slice `l[a:b]` for natural-number bounds (drop `a`, keep
`b - a` elements, clamped like Python slicing). -/
def pySliceNat (l : List ℚ) (a b : ℕ) : List ℚ := (l.drop a).take (b - a)

/-- Python slice `l[-n:]`: the last `n` elements (all of `l` if shorter). -/
def pyLastN (l : List ℚ) (n : ℕ) : List ℚ := l.drop (l.length - n)

/-- Arithmetic mean as computed by `np.mean` on a list of rationals
(`sum / len`; the empty list, NaN in NumPy, is mapped to `0` here and the
theorems below restrict to nonempty inputs). -/
def qmean (l : List ℚ) : ℚ := l.sum / l.length

/-! ### assess_forecasts.py -/

/-- Embedding of `compute_metric_score` (assess_forecasts.py lines 20-51).
The source asserts equal outer lengths, truncates each forecast to the
length of its ground-truth counterpart (`np.array(forecast)[:len(a)]`),
applies `metric`, averages, and optionally divides by the mean of the
first entries of the nonempty ground-truth sub-sequences. -/
def compute_metric_score (forecasts_array ground_truth_array : List (List ℚ))
    (metric : List ℚ → List ℚ → ℚ) (global_mean_norm : Bool) : Except PyErr ℚ :=
  if forecasts_array.length = ground_truth_array.length then
    let metric_scores := List.zipWith
      (fun forecast actual => metric (forecast.take actual.length) actual)
      forecasts_array ground_truth_array
    let metric_score := qmean metric_scores
    .ok (if global_mean_norm then
          metric_score /
            qmean ((ground_truth_array.filter (fun l => !l.isEmpty)).map (fun l => l.headD 0))
        else metric_score)
  else .error .assertionError

/-- Embedding of `MAE` (assess_forecasts.py lines 53-54):
`np.mean(np.abs(prediction - actual))` for equal-length arrays. -/
def MAE (prediction actual : List ℚ) : ℚ :=
  qmean (List.zipWith (fun p a => |p - a|) prediction actual)

/-- Positional parameters of `Predictor.compute_forecast`
(predictor.py line 158), excluding `self`. -/
def compute_forecast_params : List String :=
  ["observations", "observations_inputs", "t", "compute_forecast"]

/-- Number of trailing parameters of `Predictor.compute_forecast` that
carry default values (only `compute_forecast=True`). -/
def compute_forecast_num_defaults : ℕ := 1

/-- Number of positional arguments supplied by the harness call
`predictor.compute_forecast(observations)` (assess_forecasts.py line 110). -/
def assess_call_positional_args : ℕ := 1

/-- Python call-arity check: a call with `numArgs` positional arguments is
accepted iff it supplies at least every parameter without a default and at
most every declared parameter; otherwise the call raises `TypeError`. -/
def pyCallArityOk (params : List String) (numDefaults numArgs : ℕ) : Bool :=
  Nat.ble (params.length - numDefaults) numArgs && Nat.ble numArgs params.length

/-! ### predictor.py string keys -/

/-- Decimal digit character. -/
def digitChar : ℕ → Char
  | 0 => '0' | 1 => '1' | 2 => '2' | 3 => '3' | 4 => '4'
  | 5 => '5' | 6 => '6' | 7 => '7' | 8 => '8' | 9 => '9'
  | _ => '*'

/-- Decimal digit list of a natural number (fuel-based structural
recursion; the fuel `n + 1` always suffices). -/
def natDigits : ℕ → ℕ → List Char
  | 0, _ => []
  | fuel + 1, n =>
    if n < 10 then [digitChar n]
    else natDigits fuel (n / 10) ++ [digitChar (n % 10)]

/-- Python `str` of an integer. -/
def pyStrOfInt (b : ℤ) : String :=
  if b < 0 then String.mk ('-' :: natDigits (b.natAbs + 1) b.natAbs)
  else String.mk (natDigits (b.natAbs + 1) b.natAbs)

/-- Python `c in s` membership test for a character in a string. -/
def pyContainsChar (s : String) (c : Char) : Bool :=
  s.toList.any (fun x => x == c)

/-- Split a character list at every occurrence of `c` (the semantics of
Python `str.split(c)` for a single-character separator). -/
def splitCharAux (c : Char) : List Char → List (List Char)
  | [] => [[]]
  | x :: xs =>
    let acc := splitCharAux c xs
    if x == c then [] :: acc
    else
      match acc with
      | [] => [[x]]
      | h :: t => (x :: h) :: t

/-- Python `s.split(c)` for a single-character separator. -/
def pySplitChar (s : String) (c : Char) : List String :=
  (splitCharAux c s.toList).map String.mk

/-- Default tracked building indices of the Predictor
(predictor.py line 46: `building_indices=(5, 11)`). -/
def building_indices : List ℤ := [5, 11]

/-- Embedding of `Predictor.key2bd` (predictor.py lines 400-419).  Keys
containing an underscore split into `(building_index, dataset_type)` where
the building index is the *string* produced by the split; keys without an
underscore resolve to the first tracked building index (an *integer*) with
the key itself as dataset type.  The heterogeneous Python return type is
modelled as `String ⊕ ℤ`. -/
def key2bd (bis : List ℤ) (key : String) : Except PyErr ((String ⊕ ℤ) × String) :=
  if pyContainsChar key '_' then
    match pySplitChar key '_' with
    | [dataset_type, bidx] => .ok (Sum.inl bidx, dataset_type)
    | _ => .error .valueError
  else
    match bis with
    | [] => .error .indexError
    | b0 :: _ => .ok (Sum.inr b0, key)

/-- Embedding of `Predictor.bd2key` (predictor.py lines 421-436):
the bare dataset type for `price`/`carbon`, otherwise
`dataset_type + "_" + str(building_index)`. -/
def bd2key (building_index : ℤ) (dataset_type : String) : String :=
  if dataset_type = "price" ∨ dataset_type = "carbon" then dataset_type
  else dataset_type ++ "_" ++ pyStrOfInt building_index

/-! ### predictor.py forecast slicing -/

/-- Embedding of `snapshots = np.array([list(self.buffer[key])[-self.L:]])`
(predictor.py line 237): a two-dimensional array with a single row holding
the last `L` buffered values. -/
def snapshotsOf (buffer : List ℚ) (L : ℕ) : List (List ℚ) := [pyLastN buffer L]

/-- Embedding of the forecast slice applied to the model reconstruction on
both compute paths (predictor.py lines 320 and 376):
`reconstruction[len(snapshots) : len(snapshots) + tau * 2]` where
`len(snapshots)` is the number of *rows* of the snapshot array. -/
def forecast_slice (recon : List ℚ) (snapshots : List (List ℚ)) (tau : ℕ) : List ℚ :=
  pySliceNat recon snapshots.length (snapshots.length + tau * 2)

/-- Forecast slice as described by the specification: indices
`[L, L + 2·tau)` of the reconstruction, `L` the buffer length. -/
def spec_forecast_slice (recon : List ℚ) (L tau : ℕ) : List ℚ :=
  pySliceNat recon L (L + 2 * tau)

/-! ### linmodel.py environment data -/

/-- Battery attributes read from a building's electrical storage device
(linmodel.py lines 55-62 and 99-100). -/
structure CLBattery where
  efficiency : ℚ
  loss_coefficient : ℚ
  available_nominal_power : ℚ
  capacity : ℚ
  initial_soc : ℚ
deriving DecidableEq

/-- Building record of the external CityLearn environment, restricted to
the members this repository reads.  `solar_generation` holds the series
after the external PV conversion `b.pv.get_generation(...)`. -/
structure CLBuilding where
  name : String
  non_shiftable_load : List ℚ
  solar_generation : List ℚ
  electricity_pricing : List ℚ
  carbon_intensity : List ℚ
  electrical_storage : CLBattery
deriving DecidableEq

/-- External CityLearn environment object, restricted to the members read
by `LinProgModel.__init__`. -/
structure CLEnv where
  buildings : List CLBuilding
  time_steps : ℤ
  seconds_per_time_step : ℚ
deriving DecidableEq

/-- Instance state produced by a successful `LinProgModel.__init__`
(linmodel.py lines 30-37). -/
structure LinProgModelState where
  env : CLEnv
  b_names : List String
  Tmax : ℤ
  delta_t : ℚ
deriving DecidableEq

/-- Embedding of `LinProgModel.__init__` (linmodel.py lines 17-37).
Supplying both a schema and an environment raises `ValueError`; supplying
neither leaves `self.env = None`, and the subsequent attribute access
`self.env.buildings` raises `AttributeError`.  Environment construction
from a schema is the external boundary `cityLearnEnvOfSchema`. -/
def LinProgModel_init {Schema : Type} (cityLearnEnvOfSchema : Schema → CLEnv)
    (schema : Option Schema) (env : Option CLEnv) : Except PyErr LinProgModelState :=
  if schema.isSome && env.isSome then .error .valueError
  else
    let envOpt : Option CLEnv :=
      match schema with
      | some s => some (cityLearnEnvOfSchema s)
      | none => env
    match envOpt with
    | none => .error .attributeError
    | some e =>
      .ok { env := e
            b_names := e.buildings.map CLBuilding.name
            Tmax := e.time_steps
            delta_t := e.seconds_per_time_step / 3600 }

/-- Time-variant data recorded by a successful `set_time_data_from_env`
call (linmodel.py lines 87-111). -/
structure TimeData where
  t_start : ℤ
  tau : ℤ
  battery_initial_socs : List ℚ
  elec_loads : List (List ℚ)
  solar_gens : List (List ℚ)
  prices : List ℚ
  carbon_intensities : List ℚ
deriving DecidableEq

/-- Embedding of `LinProgModel.set_time_data_from_env` (linmodel.py lines
65-111).  `buildings = none` models the attribute never having been set
(`AttributeError`); an empty list fails the `if not self.buildings` guard
(`NameError`).  Python truthiness makes `t_start in (None, 0)` resolve to
`0` and `tau in (None, 0)` resolve to the default remaining horizon
`(Tmax - 1) - t_start`; a truthy `tau` above that bound raises
`ValueError`. -/
def set_time_data_from_env (Tmax : ℤ) (buildings : Option (List CLBuilding))
    (tau t_start : Option ℤ) (current_socs : Option (List ℚ)) : Except PyErr TimeData :=
  match buildings with
  | none => .error .attributeError
  | some [] => .error .nameError
  | some (b0 :: bs) =>
    let ts : ℤ :=
      match t_start with
      | none => 0
      | some v => if v = 0 then 0 else v
    let tauRes : Except PyErr ℤ :=
      match tau with
      | none => .ok ((Tmax - 1) - ts)
      | some v =>
        if v = 0 then .ok ((Tmax - 1) - ts)
        else if (Tmax - 1) - ts < v then .error .valueError
        else .ok v
    match tauRes with
    | .error e => .error e
    | .ok tv =>
      let allBuildings := b0 :: bs
      .ok { t_start := ts
            tau := tv
            battery_initial_socs :=
              match current_socs with
              | some cs => cs
              | none => allBuildings.map (fun b => b.electrical_storage.initial_soc)
            elec_loads :=
              allBuildings.map (fun b => pySlice b.non_shiftable_load (ts + 1) (ts + tv + 1))
            solar_gens :=
              allBuildings.map (fun b => pySlice b.solar_generation (ts + 1) (ts + tv + 1))
            prices := pySlice b0.electricity_pricing (ts + 1) (ts + tv + 1)
            carbon_intensities := pySlice b0.carbon_intensity (ts + 1) (ts + tv + 1) }

/-! ### linmodel.py objective dictionary validation -/

/-- Python scalar appearing as an `objective_dict` value: a `bool` or a
`float`, with its numeric value (`True == 1`, `False == 0`) driving both
Python `==` comparisons and truthiness. -/
inductive PyNum where
  | pybool : Bool → PyNum
  | pyfloat : ℚ → PyNum
deriving DecidableEq

/-- Numeric value of a Python scalar. -/
def PyNum.val : PyNum → ℚ
  | .pybool b => if b then 1 else 0
  | .pyfloat q => q

/-- Whether `type(val) == bool`. -/
def PyNum.isBoolTy : PyNum → Bool
  | .pybool _ => true
  | .pyfloat _ => false

/-- Python `val == True` (numeric comparison, so `1.0 == True` holds). -/
def pyEqTrue (v : PyNum) : Bool := decide (v.val = 1)

/-- The `objective_dict` argument of `generate_LP`: weightings for the
`price`, `carbon` and `ramping` objective contributions. -/
structure ObjDict where
  price : PyNum
  carbon : PyNum
  ramping : PyNum
deriving DecidableEq

/-- Python `list(objective_dict.values())` in insertion order. -/
def ObjDict.values (d : ObjDict) : List PyNum := [d.price, d.carbon, d.ramping]

/-- Entry of the dictionary by position (price, carbon, ramping). -/
def ObjDict.get (d : ObjDict) (j : Fin 3) : PyNum := d.values.getD j.1 (.pybool false)

/-- Python `list(objective_dict.values()).count(True)`: the number of
entries numerically equal to `True`. -/
def n_trues (d : ObjDict) : ℕ := (d.values.filter pyEqTrue).length

/-- Resolution loop of `generate_LP` (linmodel.py lines 188-192): if any
value equals `True`, every such value is replaced by `1 / n_trues`. -/
def resolve_trues (d : ObjDict) : ObjDict :=
  if d.values.any pyEqTrue then
    let upd : PyNum → PyNum := fun v =>
      if pyEqTrue v then .pyfloat (1 / (n_trues d : ℚ)) else v
    { price := upd d.price, carbon := upd d.carbon, ramping := upd d.ramping }
  else d

/-- Floor of the base-10 logarithm of a positive rational. -/
def qlog10floor (q : ℚ) : ℤ :=
  if 1 ≤ q then (Nat.log 10 (Int.toNat ⌊q⌋) : ℤ)
  else -(Nat.clog 10 (Int.toNat ⌈1 / q⌉) : ℤ)

/-- Embedding of `np.testing.assert_approx_equal(actual, desired,
significant=3)` as a Boolean: exact equality short-circuits, otherwise
both numbers are divided by `10 ** floor(log10((|desired| + |actual|)/2))`
and the scaled difference must be below `10 ** -(significant - 1)`. -/
def assert_approx_equal_sig3 (actual desired : ℚ) : Bool :=
  if actual = desired then true
  else
    let scale0 : ℚ := (|desired| + |actual|) / 2
    let scale : ℚ := (10 : ℚ) ^ qlog10floor scale0
    decide (|desired / scale - actual / scale| < 1 / 100)

/-- Validation and resolution of `objective_dict` at the top of
`generate_LP` (linmodel.py lines 179-192): uniformly boolean values
require at least one `True` entry; otherwise the values must sum to `1`
up to `assert_approx_equal(..., significant=3)`; then every entry equal
to `True` is replaced by an even share `1 / n_trues`. -/
def objective_dict_check (d : ObjDict) : Except PyErr ObjDict :=
  if d.values.all PyNum.isBoolTy then
    if d.values.any pyEqTrue then .ok (resolve_trues d)
    else .error .assertionError
  else
    if assert_approx_equal_sig3 ((d.values.map PyNum.val).sum) 1 then .ok (resolve_trues d)
    else .error .assertionError

/-! ### linmodel.py linear program -/

/-- Data bound into the LP by `set_battery_propery_data`,
`set_time_data_from_env`/`set_custom_time_data` and the environment:
the arrays are indexed by building `i < N` and horizon step `k < tau`.
`battery_sqrt_efficiencies` holds `np.sqrt(self.battery_efficiencies)`,
the square roots being taken at the external numeric boundary. -/
structure LPSetup where
  N : ℕ
  tau : ℕ
  battery_capacities : ℕ → ℚ
  battery_max_powers : ℕ → ℚ
  battery_sqrt_efficiencies : ℕ → ℚ
  delta_t : ℚ
  battery_initial_socs : ℕ → ℚ
  elec_loads : ℕ → ℕ → ℚ
  solar_gens : ℕ → ℕ → ℚ
  prices : ℕ → ℚ
  carbon_intensities : ℕ → ℚ

/-- Clip at a floor of zero (`np.clip(x, min=0)` / `cp.pos`). -/
def clip0 (q : ℚ) : ℚ := max q 0

/-- Parameter value bound by `set_LP_parameters` (linmodel.py line 320):
initial states of charge clipped at zero. -/
def current_socs_param (s : LPSetup) (i : ℕ) : ℚ := clip0 (s.battery_initial_socs i)

/-- Parameter value bound by `set_LP_parameters` (line 321). -/
def elec_loads_param (s : LPSetup) (i k : ℕ) : ℚ := clip0 (s.elec_loads i k)

/-- Parameter value bound by `set_LP_parameters` (line 322). -/
def solar_gens_param (s : LPSetup) (i k : ℕ) : ℚ := clip0 (s.solar_gens i k)

/-- Parameter value bound by `set_LP_parameters` (line 323). -/
def prices_param (s : LPSetup) (k : ℕ) : ℚ := clip0 (s.prices k)

/-- Parameter value bound by `set_LP_parameters` (line 324). -/
def carbon_intensities_param (s : LPSetup) (k : ℕ) : ℚ := clip0 (s.carbon_intensities k)

/-- District net grid power without storage (linmodel.py line 213). -/
def e_grids_without (s : LPSetup) (k : ℕ) : ℚ :=
  ∑ i in Finset.range s.N, (elec_loads_param s i k - solar_gens_param s i k)

/-- Ramping baseline: L1 norm of consecutive differences of
`e_grids_without` (line 214). -/
def ramp_without (s : LPSetup) : ℚ :=
  ∑ k in Finset.range (s.tau - 1), |e_grids_without s (k + 1) - e_grids_without s k|

/-- Per-building net power flow without storage (line 223). -/
def building_power_flows_without (s : LPSetup) (i k : ℕ) : ℚ :=
  elec_loads_param s i k - solar_gens_param s i k

/-- Price baseline (lines 218 and 224): district clip level multiplies the
clipped district power by prices; building clip level clips per-building
flows before summing over buildings. -/
def price_without (s : LPSetup) (clip_level : String) : ℚ :=
  if clip_level = "d" then
    ∑ k in Finset.range s.tau, clip0 (e_grids_without s k) * prices_param s k
  else
    ∑ k in Finset.range s.tau,
      (∑ i in Finset.range s.N, clip0 (building_power_flows_without s i k)) * prices_param s k

/-- Carbon baseline (lines 219 and 225), analogous to `price_without`. -/
def carbon_without (s : LPSetup) (clip_level : String) : ℚ :=
  if clip_level = "d" then
    ∑ k in Finset.range s.tau, clip0 (e_grids_without s k) * carbon_intensities_param s k
  else
    ∑ k in Finset.range s.tau,
      (∑ i in Finset.range s.N, clip0 (building_power_flows_without s i k)) *
        carbon_intensities_param s k

/-- Assignment of the CVXPY decision variables `SoC`, `alpha`, `xi`
(district auxiliary) and `bxi` (building auxiliary). -/
structure LPSol where
  SoC : ℕ → ℕ → ℚ
  alpha : ℕ → ℕ → ℚ
  xi : ℕ → ℚ
  bxi : ℕ → ℕ → ℚ

/-- Realized district net grid power with storage (linmodel.py line 262). -/
def e_grids (s : LPSetup) (v : LPSol) (k : ℕ) : ℚ :=
  ∑ i in Finset.range s.N,
    (elec_loads_param s i k - solar_gens_param s i k + v.alpha i k * s.battery_capacities i)

/-- Per-building net power flow with storage (line 285). -/
def building_power_flows (s : LPSetup) (v : LPSol) (i k : ℕ) : ℚ :=
  elec_loads_param s i k - solar_gens_param s i k + v.alpha i k * s.battery_capacities i

/-- Resolved objective weights used in the LP objective; Python truthiness
makes a contribution active iff its weight is nonzero. -/
structure ObjWeights where
  price : ℚ
  carbon : ℚ
  ramping : ℚ
deriving DecidableEq

/-- Nonnegativity of the `SoC` decision variable (declared with
`nonneg=True`, linmodel.py line 201). -/
def SoCNonnegOK (s : LPSetup) (v : LPSol) : Prop :=
  ∀ i < s.N, ∀ k < s.tau, 0 ≤ v.SoC i k

/-- Storage dynamics constraints (linmodel.py lines 232-249): two upper
bounds per step, with `sqrt(efficiency)` on the charging side and
`1/sqrt(efficiency)` on the discharging side, relative to `current_socs`
at step 0 and to the previous state of charge afterwards. -/
def StorageDynamicsOK (s : LPSetup) (v : LPSol) : Prop :=
  (∀ i < s.N,
    v.SoC i 0 ≤ current_socs_param s i +
      v.alpha i 0 * s.battery_capacities i * s.battery_sqrt_efficiencies i ∧
    v.SoC i 0 ≤ current_socs_param s i +
      v.alpha i 0 * s.battery_capacities i * (1 / s.battery_sqrt_efficiencies i)) ∧
  (∀ i < s.N, ∀ k < s.tau, 1 ≤ k →
    v.SoC i k ≤ v.SoC i (k - 1) +
      v.alpha i k * s.battery_capacities i * s.battery_sqrt_efficiencies i ∧
    v.SoC i k ≤ v.SoC i (k - 1) +
      v.alpha i k * s.battery_capacities i * (1 / s.battery_sqrt_efficiencies i))

/-- Storage power constraints (linmodel.py lines 252-255). -/
def PowerLimitsOK (s : LPSetup) (v : LPSol) : Prop :=
  ∀ i < s.N, ∀ k < s.tau,
    -(s.battery_max_powers i * s.delta_t) ≤ v.alpha i k * s.battery_capacities i ∧
    v.alpha i k * s.battery_capacities i ≤ s.battery_max_powers i * s.delta_t

/-- Storage energy constraints (linmodel.py line 258). -/
def CapacityOK (s : LPSetup) (v : LPSol) : Prop :=
  ∀ i < s.N, ∀ k < s.tau, v.SoC i k ≤ s.battery_capacities i

/-- Epigraph constraints for the auxiliary cost variable (linmodel.py
lines 273-274 district mode, 284-287 building mode), including the
`nonneg=True` declaration of `xi`/`bxi`. -/
def AuxVarOK (s : LPSetup) (clip_level : String) (v : LPSol) : Prop :=
  if clip_level = "d" then
    ∀ k < s.tau, 0 ≤ v.xi k ∧ e_grids s v k ≤ v.xi k
  else
    ∀ i < s.N, ∀ k < s.tau, 0 ≤ v.bxi i k ∧ building_power_flows s v i k ≤ v.bxi i k

/-- Feasibility for the generated LP: all constraints of
`generate_LP`; the auxiliary cost variable and its constraints exist only
when the price or carbon contribution is active (linmodel.py line 268). -/
def Feasible (s : LPSetup) (clip_level : String) (w : ObjWeights) (v : LPSol) : Prop :=
  SoCNonnegOK s v ∧ StorageDynamicsOK s v ∧ PowerLimitsOK s v ∧ CapacityOK s v ∧
    ((w.price ≠ 0 ∨ w.carbon ≠ 0) → AuxVarOK s clip_level v)

/-- Price objective contribution (linmodel.py lines 277 and 290),
normalized by `max(price_without, 1)`. -/
def price_term (s : LPSetup) (clip_level : String) (v : LPSol) : ℚ :=
  if clip_level = "d" then
    (∑ k in Finset.range s.tau, v.xi k * prices_param s k) / max (price_without s clip_level) 1
  else
    (∑ k in Finset.range s.tau, (∑ i in Finset.range s.N, v.bxi i k) * prices_param s k) /
      max (price_without s clip_level) 1

/-- Carbon objective contribution (lines 279 and 292). -/
def carbon_term (s : LPSetup) (clip_level : String) (v : LPSol) : ℚ :=
  if clip_level = "d" then
    (∑ k in Finset.range s.tau, v.xi k * carbon_intensities_param s k) /
      max (carbon_without s clip_level) 1
  else
    (∑ k in Finset.range s.tau, (∑ i in Finset.range s.N, v.bxi i k) *
      carbon_intensities_param s k) / max (carbon_without s clip_level) 1

/-- Ramping objective contribution (line 295). -/
def ramp_term (s : LPSetup) (v : LPSol) : ℚ :=
  (∑ k in Finset.range (s.tau - 1), |e_grids s v (k + 1) - e_grids s v k|) /
    max (ramp_without s) 1

/-- The LP objective (linmodel.py lines 266-300): the weighted sum of the
active contributions, a contribution being included iff its resolved
weight is truthy. -/
def objective_value (s : LPSetup) (clip_level : String) (w : ObjWeights) (v : LPSol) : ℚ :=
  (if w.price ≠ 0 then w.price * price_term s clip_level v else 0) +
  (if w.carbon ≠ 0 then w.carbon * carbon_term s clip_level v else 0) +
  (if w.ramping ≠ 0 then w.ramping * ramp_term s v else 0)

/-- Realized price contribution recomputed by `solve_LP` (linmodel.py line
360) from the solution values of `e_grids` and the *original* price array
`self.prices` (not the clipped parameter). -/
def price_contr (s : LPSetup) (v : LPSol) : ℚ :=
  ∑ k in Finset.range s.tau, clip0 (e_grids s v k) * s.prices k

/-- Realized carbon contribution recomputed by `solve_LP` (line 361). -/
def carbon_contr (s : LPSetup) (v : LPSol) : ℚ :=
  ∑ k in Finset.range s.tau, clip0 (e_grids s v k) * s.carbon_intensities k

/-- Realized ramping contribution recomputed by `solve_LP` (line 362). -/
def ramp_contr (s : LPSetup) (v : LPSol) : ℚ :=
  ∑ k in Finset.range (s.tau - 1), |e_grids s v (k + 1) - e_grids s v k|

/-- The recombination check of `solve_LP` (linmodel.py lines 363-369):
the NaN-masked breakdown entries dotted with the truthy weights.  The
boolean mask `~np.isnan(objective_breakdown)` has length 3 while
`obj_weights` only holds the truthy weights, so the indexing
`obj_weights[~np.isnan(objective_breakdown)]` raises `IndexError` unless
all three contributions are active. -/
def obj_check (s : LPSetup) (clip_level : String) (w : ObjWeights) (v : LPSol) :
    Except PyErr ℚ :=
  if w.price ≠ 0 ∧ w.carbon ≠ 0 ∧ w.ramping ≠ 0 then
    .ok (w.price * (price_contr s v / max (price_without s clip_level) 1) +
         w.carbon * (carbon_contr s v / max (carbon_without s clip_level) 1) +
         w.ramping * (ramp_contr s v / max (ramp_without s) 1))
  else .error .indexError

/-- Optimality for the generated LP: feasible, and no feasible point has a
smaller objective. -/
def IsOptimal (s : LPSetup) (clip_level : String) (w : ObjWeights) (v : LPSol) : Prop :=
  Feasible s clip_level w v ∧
    ∀ u, Feasible s clip_level w u →
      objective_value s clip_level w v ≤ objective_value s clip_level w u

/-- Claim C5 as stated: at every optimum accepted by `solve_LP`, the
recombination check equals the raw optimized objective value. -/
def ObjCheckMatchesOptimal (s : LPSetup) (clip_level : String) (w : ObjWeights) : Prop :=
  ∀ v, IsOptimal s clip_level w v →
    obj_check s clip_level w v = .ok (objective_value s clip_level w v)

/-- Objective value of the no-storage baseline: each active contribution
is its own baseline normalized by `max(baseline, 1)`. -/
def no_storage_objective (s : LPSetup) (clip_level : String) (w : ObjWeights) : ℚ :=
  (if w.price ≠ 0 then
    w.price * (price_without s clip_level / max (price_without s clip_level) 1) else 0) +
  (if w.carbon ≠ 0 then
    w.carbon * (carbon_without s clip_level / max (carbon_without s clip_level) 1) else 0) +
  (if w.ramping ≠ 0 then
    w.ramping * (ramp_without s / max (ramp_without s) 1) else 0)

/-- The no-dispatch assignment: `alpha = 0`, an identically zero state of
charge, and auxiliary variables at the clipped no-storage power flows. -/
def zero_storage_sol (s : LPSetup) : LPSol :=
  { SoC := fun _ _ => 0
    alpha := fun _ _ => 0
    xi := fun k => clip0 (e_grids_without s k)
    bxi := fun i k => clip0 (building_power_flows_without s i k) }

/-! ### concrete instances used by counterexamples and witnesses -/

/-- Building-mode counterexample data for the recombination check: two
buildings, one-step horizon, zero-capacity batteries, opposite-sign net
power flows. -/
def c5envB : LPSetup :=
  { N := 2
    tau := 1
    battery_capacities := fun _ => 0
    battery_max_powers := fun _ => 0
    battery_sqrt_efficiencies := fun _ => 1
    delta_t := 1
    battery_initial_socs := fun _ => 0
    elec_loads := fun i _ => if i = 0 then 2 else 0
    solar_gens := fun i _ => if i = 0 then 0 else 1
    prices := fun _ => 1
    carbon_intensities := fun _ => 1 }

/-- Optimal point of the `c5envB` program: tight building auxiliaries. -/
def c5solB : LPSol :=
  { SoC := fun _ _ => 0
    alpha := fun _ _ => 0
    xi := fun _ => 0
    bxi := fun i _ => if i = 0 then 2 else 0 }

/-- District-mode counterexample data for the recombination check: a
negative price entry, clipped to zero inside the LP but used raw by the
breakdown recomputation. -/
def c5envD : LPSetup :=
  { N := 1
    tau := 1
    battery_capacities := fun _ => 0
    battery_max_powers := fun _ => 0
    battery_sqrt_efficiencies := fun _ => 1
    delta_t := 1
    battery_initial_socs := fun _ => 0
    elec_loads := fun _ _ => 2
    solar_gens := fun _ _ => 0
    prices := fun _ => -1
    carbon_intensities := fun _ => 0 }

/-- Feasible (hence optimal) point of the `c5envD` program. -/
def c5solD : LPSol :=
  { SoC := fun _ _ => 0
    alpha := fun _ _ => 0
    xi := fun _ => 2
    bxi := fun _ _ => 0 }

/-- Evenly resolved weights of the default all-boolean objective dict. -/
def wEven : ObjWeights := { price := 1/3, carbon := 1/3, ramping := 1/3 }

/-- District-mode data with nonnegative inputs for the recombination-check
witness. -/
def c5envW : LPSetup :=
  { N := 1
    tau := 1
    battery_capacities := fun _ => 0
    battery_max_powers := fun _ => 0
    battery_sqrt_efficiencies := fun _ => 1
    delta_t := 1
    battery_initial_socs := fun _ => 0
    elec_loads := fun _ _ => 1
    solar_gens := fun _ _ => 0
    prices := fun _ => 1
    carbon_intensities := fun _ => 1 }

/-- Optimal point of the `c5envW` program: tight district auxiliary. -/
def c5solW : LPSol :=
  { SoC := fun _ _ => 0
    alpha := fun _ _ => 0
    xi := fun _ => 1
    bxi := fun _ _ => 0 }

/-- Explicit weights with every contribution active. -/
def wWit : ObjWeights := { price := 1/2, carbon := 1/4, ramping := 1/4 }

/-- Small valid input bundle used by the zero-action and state-of-charge
witnesses. -/
def lpWitEnv : LPSetup :=
  { N := 1
    tau := 2
    battery_capacities := fun _ => 10
    battery_max_powers := fun _ => 5
    battery_sqrt_efficiencies := fun _ => 1
    delta_t := 1
    battery_initial_socs := fun _ => 3
    elec_loads := fun _ _ => 2
    solar_gens := fun _ _ => 1
    prices := fun _ => 1
    carbon_intensities := fun _ => 1 }

/-- Single-building environment record used by the horizon-bound
counterexample and witness. -/
def cexBuilding : CLBuilding :=
  { name := "Building_1"
    non_shiftable_load := [1, 1, 1]
    solar_generation := [0, 0, 0]
    electricity_pricing := [1, 1, 1]
    carbon_intensity := [1, 1, 1]
    electrical_storage :=
      { efficiency := 1, loss_coefficient := 0, available_nominal_power := 1,
        capacity := 1, initial_soc := 0 } }

/-- Explicit float weights summing to `1.005`. -/
def c3_float_dict : ObjDict :=
  { price := .pyfloat (1/2), carbon := .pyfloat (1/2), ramping := .pyfloat (1/200) }

/-- The boolean objective dictionary of the claim:
`{price: True, carbon: True, ramping: False}`. -/
def c3_bool_dict : ObjDict :=
  { price := .pybool true, carbon := .pybool true, ramping := .pybool false }

/-! ## Helper lemmas -/

/-- Scoring a step only reads the truncated forecast: the per-step metric
scores factor through the list of truncated forecasts. -/
theorem zipWith_metric_take (metric : List ℚ → List ℚ → ℚ) :
    ∀ (f a : List (List ℚ)),
      List.zipWith (fun forecast actual => metric (forecast.take actual.length) actual) f a =
        List.zipWith metric
          (List.zipWith (fun forecast actual => forecast.take actual.length) f a) a := by
  intro f
  induction f with
  | nil => intro a; simp
  | cons x xs ih =>
    intro a
    cases a with
    | nil => simp
    | cons y ys => simp [ih ys]

/-! ## C1 -/

/-- C1: the assessment loop does invoke the Predictor's forecast
computation with the current observation, but the invocation itself is
ill-typed: `assess` passes a single positional argument while
`Predictor.compute_forecast` declares three parameters without defaults,
so the first simulation step raises `TypeError` and `assess` can never
reach the point where it returns the five-key results dictionary. -/
theorem C1_assess_call_arity :
    pyCallArityOk compute_forecast_params compute_forecast_num_defaults
      assess_call_positional_args = false := by decide

/-! ## C2 -/

/-- C2: with equal-length forecast and ground-truth lists (and at least
one scored step), `compute_metric_score` returns the mean of the per-step
scores of the forecasts truncated to their ground-truth lengths, and the
score depends on each forecast only through that truncation. -/
theorem C2_metric_truncation (f a : List (List ℚ)) (metric : List ℚ → List ℚ → ℚ)
    (hlen : f.length = a.length) (_hne : f ≠ []) :
    compute_metric_score f a metric false =
      .ok (qmean (List.zipWith
        (fun forecast actual => metric (forecast.take actual.length) actual) f a)) ∧
    ∀ g : List (List ℚ), g.length = a.length →
      List.zipWith (fun forecast actual => forecast.take actual.length) f a =
        List.zipWith (fun forecast actual => forecast.take actual.length) g a →
      compute_metric_score f a metric false = compute_metric_score g a metric false := by
  constructor
  · unfold compute_metric_score
    rw [if_pos hlen]
    rfl
  · intro g hg hagree
    unfold compute_metric_score
    rw [if_pos hlen, if_pos hg]
    rw [zipWith_metric_take, zipWith_metric_take, hagree]

/-- C2 witness: the claim's own example, `f = [1,2,3,4]`, `a = [1,2]`
under MAE scores `0` (the trailing garbage `3, 4` is never read). -/
theorem C2_metric_truncation_witness :
    compute_metric_score [[1, 2, 3, 4]] [[1, 2]] MAE false = .ok 0 := by
  rw [(C2_metric_truncation [[1, 2, 3, 4]] [[1, 2]] MAE rfl (by decide)).1]
  norm_num [qmean, MAE, List.zipWith]

/-! ## C4 -/

/-- C4 counterexample: with buffer length `L = 3` and `tau = 1`, the code
slices the reconstruction at `[1, 1 + 2·tau)` (because `len(snapshots)`
is the row count `1` of the single-row snapshot array), not at
`[L, L + 2·tau)` as the claim states; on the reconstruction
`[10, 11, 12, 13, 14, 15]` the two slices differ. -/
theorem C4_counterexample :
    forecast_slice [10, 11, 12, 13, 14, 15] (snapshotsOf [1, 2, 3] 3) 1 = [11, 12] ∧
    spec_forecast_slice [10, 11, 12, 13, 14, 15] 3 1 = [13, 14] ∧
    forecast_slice [10, 11, 12, 13, 14, 15] (snapshotsOf [1, 2, 3] 3) 1 ≠
      spec_forecast_slice [10, 11, 12, 13, 14, 15] 3 1 := by decide

/-- C4 amended: on both compute paths the returned forecast is the slice
of the reconstruction at indices `[len(snapshots), len(snapshots)+2·tau)`,
and `len(snapshots)` is always `1` (the snapshot array has one row),
independent of the buffer length `L`. -/
theorem C4_forecast_slice (recon buffer : List ℚ) (L tau : ℕ) :
    forecast_slice recon (snapshotsOf buffer L) tau = pySliceNat recon 1 (1 + tau * 2) := by
  simp [forecast_slice, snapshotsOf]

/-! ## C9 -/

/-- C9 counterexample: the round trip on `(5, load)` yields the *string*
`"5"` (Python returns the unparsed split component), so it differs from
`(5, load)` with the integer building index, exactly as Python's
`('5', 'load') == (5, 'load')` evaluates to `False`. -/
theorem C9_counterexample :
    key2bd building_indices (bd2key 5 "load") = .ok (Sum.inl "5", "load") ∧
    key2bd building_indices (bd2key 5 "load") ≠ .ok (Sum.inr (5 : ℤ), "load") := by decide

/-- C9 amended: for every tracked building index and type in
`{load, solar}` the round trip returns the *decimal string* of the index
paired with the dataset type; for `carbon`/`price`, `bd2key` emits the
bare dataset type and `key2bd` resolves it to the first tracked building
index (as an integer). -/
theorem C9_key_mapping :
    (∀ b ∈ building_indices, ∀ t ∈ (["load", "solar"] : List String),
      key2bd building_indices (bd2key b t) = .ok (Sum.inl (pyStrOfInt b), t)) ∧
    (∀ b : ℤ, bd2key b "carbon" = "carbon" ∧ bd2key b "price" = "price") ∧
    (key2bd building_indices "carbon" = .ok (Sum.inr 5, "carbon") ∧
     key2bd building_indices "price" = .ok (Sum.inr 5, "price")) := by
  refine ⟨by decide, ?_, by decide⟩
  intro b
  constructor
  · simp [bd2key]
  · simp [bd2key]

/-- C9 witness: the amended round trip evaluated at `b = 5`, `t = load`. -/
theorem C9_key_mapping_witness :
    key2bd building_indices (bd2key 5 "load") = .ok (Sum.inl (pyStrOfInt 5), "load") :=
  C9_key_mapping.1 5 (by decide) "load" (by decide)

/-! ## C10 -/

/-- C10: constructing `LinProgModel` with neither a schema nor an
environment passes the argument validation (which only rejects supplying
both, with `ValueError`) and fails at the attribute access
`self.env.buildings` with `AttributeError`. -/
theorem C10_init_no_args :
    (∀ (Schema : Type) (f : Schema → CLEnv),
      LinProgModel_init f none none = .error .attributeError) ∧
    (∀ (Schema : Type) (f : Schema → CLEnv) (sch : Schema) (e : CLEnv),
      LinProgModel_init f (some sch) (some e) = .error .valueError) :=
  ⟨fun _ _ => rfl, fun _ _ _ _ => rfl⟩

/-! ## C7 -/

/-- C7 counterexample: with `Tmax = 3` and `t_start = 3`, the supplied
`tau = 0` exceeds `(Tmax - 1) - t_start = -1`, yet the call succeeds:
Python's `if not tau` treats `0` as unsupplied and silently installs the
default remaining horizon instead of raising. -/
theorem C7_counterexample :
    ((0 : ℤ) > ((3 - 1) - 3)) ∧
    (set_time_data_from_env 3 (some [cexBuilding]) (some 0) (some 3) none).isOk = true := by
  refine ⟨by decide, ?_⟩
  rfl

/-- C7 amended: with battery data set, a *nonzero* supplied `tau` succeeds
exactly when it does not exceed `(Tmax - 1) - t_start`, and the boundary
value `tau = (Tmax - 1) - t_start` always succeeds with that resolved
horizon (via the truthy path when it is nonzero, via the default path when
it is zero); a supplied `tau = 0` is treated as unsupplied and never
raises. -/
theorem C7_horizon_bound (Tmax : ℤ) (b0 : CLBuilding) (bs : List CLBuilding)
    (ts : ℤ) (socs : Option (List ℚ)) :
    (∀ v : ℤ, v ≠ 0 →
      ((set_time_data_from_env Tmax (some (b0 :: bs)) (some v) (some ts) socs).isOk = true ↔
        v ≤ (Tmax - 1) - ts)) ∧
    ((set_time_data_from_env Tmax (some (b0 :: bs)) (some ((Tmax - 1) - ts))
        (some ts) socs).map TimeData.tau = .ok ((Tmax - 1) - ts)) := by
  have hts : (if ts = 0 then (0 : ℤ) else ts) = ts := by
    by_cases h : ts = 0 <;> simp [h]
  constructor
  · intro v hv
    by_cases hgt : (Tmax - 1) - ts < v
    · simp [set_time_data_from_env, hv, hts, hgt, Except.isOk, Except.toBool]
    · simp [set_time_data_from_env, hv, hts, hgt, Except.isOk, Except.toBool]
      omega
  · by_cases hb : (Tmax - 1) - ts = 0
    · simp [set_time_data_from_env, hb, hts, Except.map]
    · simp only [set_time_data_from_env, hts]
      rw [if_neg hb, if_neg (by omega : ¬ (Tmax - 1) - ts < (Tmax - 1) - ts)]
      simp [Except.map]

/-- C7 witness: with `Tmax = 3`, `t_start = 0`, the one-too-many horizon
`tau = 3` fails while the boundary `tau = 2` succeeds. -/
theorem C7_horizon_bound_witness :
    ((set_time_data_from_env 3 (some [cexBuilding]) (some 3) (some 0) none).isOk = true ↔
      (3 : ℤ) ≤ (3 - 1) - 0) ∧
    ((set_time_data_from_env 3 (some [cexBuilding]) (some ((3 - 1) - 0)) (some 0) none).map
        TimeData.tau = .ok ((3 - 1) - 0)) :=
  ⟨(C7_horizon_bound 3 cexBuilding [] 0 none).1 3 (by decide),
   (C7_horizon_bound 3 cexBuilding [] 0 none).2⟩

/-! ## C3 -/

/-- Powers of ten are positive. -/
theorem ten_zpow_pos (z : ℤ) : (0 : ℚ) < (10 : ℚ) ^ z := zpow_pos (by norm_num) z

/-- Correctness of `qlog10floor`: it brackets a positive rational between
consecutive integer powers of ten. -/
theorem qlog10floor_spec (q : ℚ) (hq : 0 < q) :
    (10 : ℚ) ^ qlog10floor q ≤ q ∧ q < (10 : ℚ) ^ (qlog10floor q + 1) := by
  unfold qlog10floor
  by_cases h1 : 1 ≤ q
  · rw [if_pos h1]
    have hfl : (1 : ℤ) ≤ ⌊q⌋ := by
      rw [Int.le_floor]; exact_mod_cast h1
    set n : ℕ := Int.toNat ⌊q⌋ with hn
    have hnz : n ≠ 0 := by omega
    have hzq : ((n : ℤ)) = ⌊q⌋ := by omega
    have hfq : ((⌊q⌋ : ℤ) : ℚ) = (n : ℚ) := by rw [← hzq]; push_cast; ring
    constructor
    · have h10 : (10 : ℚ) ^ ((Nat.log 10 n : ℕ) : ℤ) = ((10 ^ Nat.log 10 n : ℕ) : ℚ) := by
        rw [zpow_natCast]; push_cast; ring
      rw [h10]
      calc ((10 ^ Nat.log 10 n : ℕ) : ℚ) ≤ (n : ℚ) := by
            exact_mod_cast Nat.pow_log_le_self 10 hnz
        _ = ((⌊q⌋ : ℤ) : ℚ) := hfq.symm
        _ ≤ q := Int.floor_le q
    · have h10 : (10 : ℚ) ^ (((Nat.log 10 n : ℕ) : ℤ) + 1) =
          ((10 ^ (Nat.log 10 n + 1) : ℕ) : ℚ) := by
        rw [show (((Nat.log 10 n : ℕ) : ℤ) + 1) = ((Nat.log 10 n + 1 : ℕ) : ℤ) by push_cast; ring,
          zpow_natCast]
        push_cast; ring
      rw [h10]
      have hlt : n < 10 ^ (Nat.log 10 n + 1) := Nat.lt_pow_succ_log_self (by norm_num) n
      have hlt2 : (n : ℚ) + 1 ≤ ((10 ^ (Nat.log 10 n + 1) : ℕ) : ℚ) := by exact_mod_cast hlt
      have hfloor : q < ((⌊q⌋ : ℤ) : ℚ) + 1 := Int.lt_floor_add_one q
      rw [hfq] at hfloor
      linarith
  · rw [if_neg h1]
    have hq1 : q < 1 := not_le.mp h1
    have hr : 1 < 1 / q := by rw [lt_div_iff hq]; linarith
    have hcl : (1 : ℤ) < ⌈1 / q⌉ := by exact_mod_cast lt_of_lt_of_le hr (Int.le_ceil (1 / q))
    set m : ℕ := Int.toNat ⌈1 / q⌉ with hm
    have hm2 : 2 ≤ m := by omega
    have hmz : ((m : ℤ)) = ⌈1 / q⌉ := by omega
    have hmq : ((m : ℚ)) = ((⌈1 / q⌉ : ℤ) : ℚ) := by rw [← hmz]; push_cast; ring
    set k : ℕ := Nat.clog 10 m with hk
    have hk1 : 0 < k := Nat.clog_pos (by norm_num) hm2
    have hup : (1 / q) ≤ ((10 ^ k : ℕ) : ℚ) := by
      calc (1 / q) ≤ ((⌈1 / q⌉ : ℤ) : ℚ) := Int.le_ceil _
        _ = (m : ℚ) := hmq.symm
        _ ≤ ((10 ^ k : ℕ) : ℚ) := by exact_mod_cast Nat.le_pow_clog (by norm_num) m
    have hlow : ((10 ^ (k - 1) : ℕ) : ℚ) < 1 / q := by
      have ha : (10 : ℕ) ^ (k - 1) < m := Nat.pow_pred_clog_lt_self (by norm_num) (by omega)
      have hb : (10 : ℕ) ^ (k - 1) ≤ m - 1 := by omega
      have hc : ((10 ^ (k - 1) : ℕ) : ℚ) ≤ (m : ℚ) - 1 := by
        have := (Nat.cast_le (α := ℚ)).mpr hb
        rw [Nat.cast_sub (by omega)] at this
        simpa using this
      have hd : (m : ℚ) - 1 < 1 / q := by
        rw [hmq]
        have := Int.ceil_lt_add_one (1 / q)
        linarith
      linarith
    constructor
    · have hpk : (0 : ℚ) < ((10 ^ k : ℕ) : ℚ) := by positivity
      have heq : (10 : ℚ) ^ (-((k : ℕ) : ℤ)) = 1 / ((10 ^ k : ℕ) : ℚ) := by
        rw [zpow_neg, zpow_natCast, one_div]; push_cast; ring
      rw [heq, div_le_iff hpk]
      have h2 := (div_le_iff hq).mp hup
      have hcomm : ((10 ^ k : ℕ) : ℚ) * q = q * ((10 ^ k : ℕ) : ℚ) := mul_comm _ _
      linarith
    · have hpk : (0 : ℚ) < ((10 ^ (k - 1) : ℕ) : ℚ) := by positivity
      have hkk : (-((k : ℕ) : ℤ) + 1) = -(((k - 1 : ℕ) : ℤ)) := by omega
      have heq : (10 : ℚ) ^ (-((k : ℕ) : ℤ) + 1) = 1 / ((10 ^ (k - 1) : ℕ) : ℚ) := by
        rw [hkk, zpow_neg, zpow_natCast, one_div]; push_cast; ring
      rw [heq, lt_div_iff hpk]
      have h2 := (lt_div_iff hq).mp hlow
      have hcomm : ((10 ^ (k - 1) : ℕ) : ℚ) * q = q * ((10 ^ (k - 1) : ℕ) : ℚ) := mul_comm _ _
      linarith

/-- The bracketing property determines `qlog10floor` uniquely. -/
theorem qlog10floor_unique (q : ℚ) (hq : 0 < q) (z : ℤ)
    (h1 : (10 : ℚ) ^ z ≤ q) (h2 : q < (10 : ℚ) ^ (z + 1)) : qlog10floor q = z := by
  obtain ⟨l, u⟩ := qlog10floor_spec q hq
  by_contra hne
  rcases lt_or_gt_of_ne hne with h | h
  · have hle : (10 : ℚ) ^ (qlog10floor q + 1) ≤ (10 : ℚ) ^ z :=
      zpow_le_zpow_right₀ (by norm_num) (by omega)
    linarith
  · have hle : (10 : ℚ) ^ (z + 1) ≤ (10 : ℚ) ^ qlog10floor q :=
      zpow_le_zpow_right₀ (by norm_num) (by omega)
    linarith

/-- Characterization of numpy's 3-significant-digit approximate equality
against `1`: the check accepts exactly the sums in `(0.999, 1.01)` — the
tolerance is `1e-3` below `1` but `1e-2` above it. -/
theorem assert_approx_one_iff (s : ℚ) :
    assert_approx_equal_sig3 s 1 = true ↔ 999/1000 < s ∧ s < 101/100 := by
  unfold assert_approx_equal_sig3
  by_cases hs1 : s = 1
  · subst hs1; norm_num
  · rw [if_neg hs1]
    simp only [decide_eq_true_eq, abs_one]
    by_cases hpos : 0 ≤ s
    · rw [abs_of_nonneg hpos]
      by_cases hlt1 : s < 1
      · have hA : (0 : ℚ) < (1 + s) / 2 := by linarith
        have hfl : qlog10floor ((1 + s) / 2) = -1 := by
          refine qlog10floor_unique _ hA (-1) ?_ ?_
          · rw [zpow_neg, zpow_one]; rw [show ((10 : ℚ)⁻¹) = 1/10 by norm_num]; linarith
          · rw [show ((-1 : ℤ) + 1) = 0 by ring, zpow_zero]; linarith
        rw [hfl]
        rw [show ((10 : ℚ) ^ (-1 : ℤ)) = 1/10 by rw [zpow_neg, zpow_one]; norm_num]
        rw [show (1 : ℚ) / (1/10) - s / (1/10) = 10 * (1 - s) by field_simp; ring]
        rw [abs_of_nonneg (by linarith : (0:ℚ) ≤ 10 * (1 - s))]
        constructor
        · intro h; exact ⟨by linarith, by linarith⟩
        · rintro ⟨h1, _⟩; linarith
      · have hgt1 : 1 < s := lt_of_le_of_ne (not_lt.mp hlt1) (Ne.symm hs1)
        by_cases hs19 : s < 19
        · have hA : (0 : ℚ) < (1 + s) / 2 := by linarith
          have hfl : qlog10floor ((1 + s) / 2) = 0 := by
            refine qlog10floor_unique _ hA 0 ?_ ?_
            · rw [zpow_zero]; linarith
            · rw [zero_add, zpow_one]; linarith
          rw [hfl, zpow_zero]
          rw [show (1 : ℚ) / 1 - s / 1 = 1 - s by ring]
          rw [abs_of_nonpos (by linarith : (1 : ℚ) - s ≤ 0)]
          constructor
          · intro h; exact ⟨by linarith, by linarith⟩
          · rintro ⟨_, h2⟩; linarith
        · have hs19' : 19 ≤ s := not_lt.mp hs19
          have hA : (0 : ℚ) < (1 + s) / 2 := by linarith
          have hsc : (0 : ℚ) < (10 : ℚ) ^ qlog10floor ((1 + s) / 2) := ten_zpow_pos _
          have hscA : (10 : ℚ) ^ qlog10floor ((1 + s) / 2) ≤ (1 + s) / 2 :=
            (qlog10floor_spec _ hA).1
          refine iff_of_false ?_ (by rintro ⟨_, h2⟩; linarith)
          intro hcon
          rw [div_sub_div_same, abs_of_nonpos (by
            apply div_nonpos_of_nonpos_of_nonneg <;> linarith)] at hcon
          have h1 : (s - 1) / ((1 + s) / 2) ≤ (s - 1) / (10 : ℚ) ^ qlog10floor ((1 + s) / 2) :=
            div_le_div_of_nonneg_left (by linarith) hsc hscA
          have h2 : (1 : ℚ) / 100 ≤ (s - 1) / ((1 + s) / 2) := by
            rw [le_div_iff hA]; linarith
          have h3 : -((1 - s) / (10 : ℚ) ^ qlog10floor ((1 + s) / 2)) =
              (s - 1) / (10 : ℚ) ^ qlog10floor ((1 + s) / 2) := by ring
          rw [h3] at hcon
          linarith
    · have hneg : s < 0 := not_le.mp hpos
      rw [abs_of_neg hneg]
      have hA : (0 : ℚ) < (1 + -s) / 2 := by linarith
      have hsc : (0 : ℚ) < (10 : ℚ) ^ qlog10floor ((1 + -s) / 2) := ten_zpow_pos _
      have hscA : (10 : ℚ) ^ qlog10floor ((1 + -s) / 2) ≤ (1 + -s) / 2 :=
        (qlog10floor_spec _ hA).1
      refine iff_of_false ?_ (by rintro ⟨h1, _⟩; linarith)
      intro hcon
      rw [div_sub_div_same, abs_of_nonneg (by
        apply div_nonneg <;> linarith)] at hcon
      have h1 : (1 - s) / ((1 + -s) / 2) ≤ (1 - s) / (10 : ℚ) ^ qlog10floor ((1 + -s) / 2) :=
        div_le_div_of_nonneg_left (by linarith) hsc hscA
      have h2 : (2 : ℚ) ≤ (1 - s) / ((1 + -s) / 2) := by
        rw [le_div_iff hA]; linarith
      linarith

/-- Python `(pybool b) == True` is `b` itself. -/
theorem pyEqTrue_pybool (b : Bool) : pyEqTrue (.pybool b) = b := by
  cases b <;> simp [pyEqTrue, PyNum.val]

/-- C3 counterexample: the explicit weights `0.5, 0.5, 0.005` sum to
`1.005`, which misses `1` by five times the claimed `1e-3` tolerance, yet
`generate_LP`'s weight validation accepts them (numpy's 3-significant-digit
check scales by `1` here and therefore tolerates `1e-2` above `1`). -/
theorem C3_counterexample :
    ((c3_float_dict.values.map PyNum.val).sum = 201/200 ∧ |(201 : ℚ)/200 - 1| > 1/1000) ∧
    (objective_dict_check c3_float_dict).isOk = true := by
  have hsum : (c3_float_dict.values.map PyNum.val).sum = 201/200 := by
    norm_num [c3_float_dict, ObjDict.values, PyNum.val]
  refine ⟨⟨hsum, by rw [abs_of_nonneg (by norm_num)]; norm_num⟩, ?_⟩
  have hchk : assert_approx_equal_sig3 ((c3_float_dict.values.map PyNum.val).sum) 1 = true := by
    rw [hsum, assert_approx_one_iff]
    norm_num
  rw [objective_dict_check,
    if_neg (by decide : ¬ (c3_float_dict.values.all PyNum.isBoolTy = true)), if_pos hchk]
  rfl

/-- C3 amended: an all-boolean `objective_dict` with at least one `True`
entry resolves every `True` entry to the even share `1 / n_trues` and
every `False` entry to weight `0`, the resolved weights summing to `1`;
an `objective_dict` that is not all-boolean is accepted exactly when its
value sum `s` passes numpy's 3-significant-digit approximate equality with
`1`, i.e. `0.999 < s < 1.01` — tolerance `1e-3` below `1` but `1e-2`
above it, not uniformly `1e-3`. -/
theorem C3_objective_weights (d : ObjDict) :
    (d.values.all PyNum.isBoolTy = true → d.values.any pyEqTrue = true →
      objective_dict_check d = .ok (resolve_trues d) ∧
      (∀ j : Fin 3, ((resolve_trues d).get j).val =
        if pyEqTrue (d.get j) = true then 1 / (n_trues d : ℚ) else 0) ∧
      ((resolve_trues d).values.map PyNum.val).sum = 1) ∧
    (d.values.all PyNum.isBoolTy = false →
      ((objective_dict_check d).isOk = true ↔
        999/1000 < (d.values.map PyNum.val).sum ∧ (d.values.map PyNum.val).sum < 101/100)) := by
  constructor
  · intro hall hany
    obtain ⟨p, c, r⟩ := d
    rcases p with b1 | q1
    case pyfloat => simp [ObjDict.values, PyNum.isBoolTy] at hall
    rcases c with b2 | q2
    case pyfloat => simp [ObjDict.values, PyNum.isBoolTy] at hall
    rcases r with b3 | q3
    case pyfloat => simp [ObjDict.values, PyNum.isBoolTy] at hall
    refine ⟨by rw [objective_dict_check, if_pos hall, if_pos hany], ?_, ?_⟩
    · intro j
      fin_cases j <;> cases b1 <;> cases b2 <;> cases b3 <;>
        simp_all [resolve_trues, ObjDict.values, ObjDict.get, n_trues, pyEqTrue_pybool,
          PyNum.val, List.filter]
    · cases b1 <;> cases b2 <;> cases b3 <;>
        simp_all [resolve_trues, ObjDict.values, n_trues, pyEqTrue_pybool, PyNum.val,
          List.filter] <;> norm_num
  · intro hall
    have hiff := assert_approx_one_iff ((d.values.map PyNum.val).sum)
    rcases hb : assert_approx_equal_sig3 ((d.values.map PyNum.val).sum) 1 with _ | _ <;>
      simp [objective_dict_check, hall, hb, Except.isOk, Except.toBool, ← hiff]

/-- C3 witness: the claim's boolean example resolves to
`price = 0.5, carbon = 0.5, ramping = 0`, and the float path accepts the
`1.005` dictionary exactly because its sum lies in `(0.999, 1.01)`. -/
theorem C3_objective_weights_witness :
    (((resolve_trues c3_bool_dict).get 0).val = 1/2 ∧
     ((resolve_trues c3_bool_dict).get 1).val = 1/2 ∧
     ((resolve_trues c3_bool_dict).get 2).val = 0) ∧
    ((objective_dict_check c3_float_dict).isOk = true ↔
      999/1000 < (c3_float_dict.values.map PyNum.val).sum ∧
        (c3_float_dict.values.map PyNum.val).sum < 101/100) := by
  have h1 := (C3_objective_weights c3_bool_dict).1 (by decide) (by decide)
  have h2 := (C3_objective_weights c3_float_dict).2 (by decide)
  refine ⟨⟨?_, ?_, ?_⟩, h2⟩
  · rw [h1.2.1 0]
    norm_num [c3_bool_dict, ObjDict.get, ObjDict.values, n_trues, pyEqTrue_pybool, List.filter]
  · rw [h1.2.1 1]
    norm_num [c3_bool_dict, ObjDict.get, ObjDict.values, n_trues, pyEqTrue_pybool, List.filter]
  · rw [h1.2.1 2]
    norm_num [c3_bool_dict, ObjDict.get, ObjDict.values, n_trues, pyEqTrue_pybool, List.filter]

/-! ## C6 and C8 -/

/-- Clipping is the identity on nonnegative values. -/
theorem clip0_of_nonneg (q : ℚ) (h : 0 ≤ q) : clip0 q = q := max_eq_left h

/-- With `alpha = 0`, the realized district power equals the no-storage
district power. -/
theorem e_grids_zero_storage (s : LPSetup) (k : ℕ) :
    e_grids s (zero_storage_sol s) k = e_grids_without s k := by
  unfold e_grids e_grids_without zero_storage_sol
  simp

/-- With `alpha = 0`, the realized building flows equal the no-storage
building flows. -/
theorem building_power_flows_zero_storage (s : LPSetup) (i k : ℕ) :
    building_power_flows s (zero_storage_sol s) i k = building_power_flows_without s i k := by
  unfold building_power_flows building_power_flows_without zero_storage_sol
  simp

/-- District-mode form of the price contribution. -/
theorem price_term_d (s : LPSetup) (v : LPSol) :
    price_term s "d" v =
      (∑ k in Finset.range s.tau, v.xi k * prices_param s k) / max (price_without s "d") 1 := by
  rw [price_term, if_pos rfl]

/-- District-mode form of the carbon contribution. -/
theorem carbon_term_d (s : LPSetup) (v : LPSol) :
    carbon_term s "d" v =
      (∑ k in Finset.range s.tau, v.xi k * carbon_intensities_param s k) /
        max (carbon_without s "d") 1 := by
  rw [carbon_term, if_pos rfl]

/-- At the zero-storage solution the price contribution is the normalized
price baseline, in either clip mode. -/
theorem price_term_zero_storage (s : LPSetup) (clip_level : String) :
    price_term s clip_level (zero_storage_sol s) =
      price_without s clip_level / max (price_without s clip_level) 1 := by
  by_cases h : clip_level = "d" <;>
    simp [price_term, price_without, zero_storage_sol, h]

/-- At the zero-storage solution the carbon contribution is the normalized
carbon baseline, in either clip mode. -/
theorem carbon_term_zero_storage (s : LPSetup) (clip_level : String) :
    carbon_term s clip_level (zero_storage_sol s) =
      carbon_without s clip_level / max (carbon_without s clip_level) 1 := by
  by_cases h : clip_level = "d" <;>
    simp [carbon_term, carbon_without, zero_storage_sol, h]

/-- At the zero-storage solution the ramping contribution is the
normalized ramping baseline. -/
theorem ramp_term_zero_storage (s : LPSetup) :
    ramp_term s (zero_storage_sol s) = ramp_without s / max (ramp_without s) 1 := by
  unfold ramp_term
  simp [e_grids_zero_storage, ramp_without]

/-- The zero-dispatch assignment satisfies every constraint of the
generated LP whenever the initial states of charge lie in `[0, capacity]`
and powers and step length are nonnegative. -/
theorem zero_storage_feasible (s : LPSetup) (clip_level : String) (w : ObjWeights)
    (hsoc : ∀ i < s.N, 0 ≤ s.battery_initial_socs i ∧
      s.battery_initial_socs i ≤ s.battery_capacities i)
    (hpow : ∀ i < s.N, 0 ≤ s.battery_max_powers i)
    (hdt : 0 ≤ s.delta_t) :
    Feasible s clip_level w (zero_storage_sol s) := by
  refine ⟨?_, ⟨?_, ?_⟩, ?_, ?_, ?_⟩
  · intro i _ k _
    exact le_refl 0
  · intro i _
    constructor <;>
      · show (0 : ℚ) ≤ current_socs_param s i + 0 * s.battery_capacities i * _
        have h0 : (0 : ℚ) ≤ current_socs_param s i := le_max_right _ _
        nlinarith
  · intro i _ k _ _
    constructor <;>
      · show (0 : ℚ) ≤ (0 : ℚ) + 0 * s.battery_capacities i * _
        nlinarith
  · intro i hi k _
    have hmp := mul_nonneg (hpow i hi) hdt
    constructor <;>
      · show _ ≤ _
        simp only [zero_storage_sol, zero_mul]
        linarith
  · intro i hi k _
    have h1 := (hsoc i hi).1
    have h2 := (hsoc i hi).2
    show (0 : ℚ) ≤ s.battery_capacities i
    linarith
  · intro _
    unfold AuxVarOK
    by_cases h : clip_level = "d"
    · rw [if_pos h]
      intro k _
      refine ⟨le_max_right _ _, ?_⟩
      rw [e_grids_zero_storage]
      exact le_max_left _ _
    · rw [if_neg h]
      intro i _ k _
      refine ⟨le_max_right _ _, ?_⟩
      rw [building_power_flows_zero_storage]
      exact le_max_left _ _

/-- C6: for a valid input bundle with initial states of charge in
`[0, capacity]`, the assignment `alpha = 0` (with the all-zero state of
charge and clipped no-storage auxiliaries) satisfies every storage
dynamics, power, capacity and auxiliary constraint of the generated LP,
and its objective value is exactly the no-storage baseline objective. -/
theorem C6_zero_action (s : LPSetup) (clip_level : String) (w : ObjWeights)
    (_hclip : clip_level = "d" ∨ clip_level = "b")
    (hsoc : ∀ i < s.N, 0 ≤ s.battery_initial_socs i ∧
      s.battery_initial_socs i ≤ s.battery_capacities i)
    (hpow : ∀ i < s.N, 0 ≤ s.battery_max_powers i)
    (hdt : 0 ≤ s.delta_t) :
    Feasible s clip_level w (zero_storage_sol s) ∧
    objective_value s clip_level w (zero_storage_sol s) =
      no_storage_objective s clip_level w := by
  refine ⟨zero_storage_feasible s clip_level w hsoc hpow hdt, ?_⟩
  unfold objective_value no_storage_objective
  rw [price_term_zero_storage, carbon_term_zero_storage, ramp_term_zero_storage]

/-- C6 witness: the zero-action point of the concrete bundle `lpWitEnv`
is feasible and reproduces the no-storage baseline objective. -/
theorem C6_zero_action_witness :
    Feasible lpWitEnv "d" wEven (zero_storage_sol lpWitEnv) ∧
    objective_value lpWitEnv "d" wEven (zero_storage_sol lpWitEnv) =
      no_storage_objective lpWitEnv "d" wEven :=
  C6_zero_action lpWitEnv "d" wEven (Or.inl rfl)
    (fun i _ => ⟨by norm_num [lpWitEnv], by norm_num [lpWitEnv]⟩)
    (fun i _ => by norm_num [lpWitEnv]) (by norm_num [lpWitEnv])

/-- C8: every feasible point of the generated LP keeps each state of
charge between `0` and the battery capacity at every horizon step. -/
theorem C8_soc_invariant (s : LPSetup) (clip_level : String) (w : ObjWeights) (v : LPSol)
    (h : Feasible s clip_level w v) :
    ∀ i < s.N, ∀ k < s.tau, 0 ≤ v.SoC i k ∧ v.SoC i k ≤ s.battery_capacities i :=
  fun i hi k hk => ⟨h.1 i hi k hk, h.2.2.2.1 i hi k hk⟩

/-- C8 witness: the invariant evaluated at the concrete feasible point of
`lpWitEnv` at building `0`, step `0`. -/
theorem C8_soc_invariant_witness :
    0 ≤ (zero_storage_sol lpWitEnv).SoC 0 0 ∧
    (zero_storage_sol lpWitEnv).SoC 0 0 ≤ lpWitEnv.battery_capacities 0 :=
  C8_soc_invariant lpWitEnv "d" wEven (zero_storage_sol lpWitEnv)
    (zero_storage_feasible lpWitEnv "d" wEven
      (fun i _ => ⟨by norm_num [lpWitEnv], by norm_num [lpWitEnv]⟩)
      (fun i _ => by norm_num [lpWitEnv]) (by norm_num [lpWitEnv]))
    0 (by norm_num [lpWitEnv]) 0 (by norm_num [lpWitEnv])

/-! ## C5 -/

/-- Expansion of the objective when all three contributions are active. -/
theorem objective_value_active (s : LPSetup) (clip_level : String) (w : ObjWeights)
    (v : LPSol) (hwp : w.price ≠ 0) (hwc : w.carbon ≠ 0) (hwr : w.ramping ≠ 0) :
    objective_value s clip_level w v =
      w.price * price_term s clip_level v + w.carbon * carbon_term s clip_level v +
        w.ramping * ramp_term s v := by
  unfold objective_value
  rw [if_pos hwp, if_pos hwc, if_pos hwr]

/-- C5 amended: in district clip mode, with nonnegative price and carbon
inputs and all three objective contributions active with nonnegative
price/carbon weights, the recombination check `obj_check` equals the raw
optimized objective value at every optimum. -/
theorem C5_obj_check_matches (s : LPSetup) (w : ObjWeights) (v : LPSol)
    (hp : ∀ k < s.tau, 0 ≤ s.prices k)
    (hc : ∀ k < s.tau, 0 ≤ s.carbon_intensities k)
    (hwp : 0 < w.price) (hwc : 0 < w.carbon) (hwr : w.ramping ≠ 0)
    (hopt : IsOptimal s "d" w v) :
    obj_check s "d" w v = .ok (objective_value s "d" w v) := by
  obtain ⟨hfeas, hmin⟩ := hopt
  have haux : ∀ k < s.tau, 0 ≤ v.xi k ∧ e_grids s v k ≤ v.xi k := by
    have h := hfeas.2.2.2.2 (Or.inl (ne_of_gt hwp))
    rw [AuxVarOK, if_pos rfl] at h
    exact h
  set u : LPSol :=
    { SoC := v.SoC, alpha := v.alpha, xi := fun k => clip0 (e_grids s v k), bxi := v.bxi }
    with hu
  have hufeas : Feasible s "d" w u := by
    refine ⟨hfeas.1, hfeas.2.1, hfeas.2.2.1, hfeas.2.2.2.1, ?_⟩
    intro _
    rw [AuxVarOK, if_pos rfl]
    intro k _
    exact ⟨le_max_right _ _, le_max_left _ _⟩
  have hxi : ∀ k < s.tau, clip0 (e_grids s v k) ≤ v.xi k := fun k hk =>
    max_le (haux k hk).2 (haux k hk).1
  have hDp : (0 : ℚ) < max (price_without s "d") 1 := lt_max_of_lt_right one_pos
  have hDc : (0 : ℚ) < max (carbon_without s "d") 1 := lt_max_of_lt_right one_pos
  have hsump : (∑ k in Finset.range s.tau, u.xi k * prices_param s k) ≤
      ∑ k in Finset.range s.tau, v.xi k * prices_param s k := by
    apply Finset.sum_le_sum
    intro k hk
    exact mul_le_mul_of_nonneg_right (hxi k (Finset.mem_range.mp hk)) (le_max_right _ _)
  have hsumc : (∑ k in Finset.range s.tau, u.xi k * carbon_intensities_param s k) ≤
      ∑ k in Finset.range s.tau, v.xi k * carbon_intensities_param s k := by
    apply Finset.sum_le_sum
    intro k hk
    exact mul_le_mul_of_nonneg_right (hxi k (Finset.mem_range.mp hk)) (le_max_right _ _)
  have hpt : price_term s "d" u ≤ price_term s "d" v := by
    rw [price_term_d, price_term_d]
    exact (div_le_div_right hDp).mpr hsump
  have hct : carbon_term s "d" u ≤ carbon_term s "d" v := by
    rw [carbon_term_d, carbon_term_d]
    exact (div_le_div_right hDc).mpr hsumc
  have hrr : ramp_term s u = ramp_term s v := rfl
  have hrrw : w.ramping * ramp_term s u = w.ramping * ramp_term s v := by rw [hrr]
  have hmp : w.price * price_term s "d" u ≤ w.price * price_term s "d" v :=
    mul_le_mul_of_nonneg_left hpt hwp.le
  have hmc : w.carbon * carbon_term s "d" u ≤ w.carbon * carbon_term s "d" v :=
    mul_le_mul_of_nonneg_left hct hwc.le
  have hobj_le : objective_value s "d" w u ≤ objective_value s "d" w v := by
    rw [objective_value_active s "d" w u (ne_of_gt hwp) (ne_of_gt hwc) hwr,
      objective_value_active s "d" w v (ne_of_gt hwp) (ne_of_gt hwc) hwr]
    linarith
  have hobj_eq : objective_value s "d" w v = objective_value s "d" w u :=
    le_antisymm (hmin u hufeas) hobj_le
  have hterm_p : w.price * price_term s "d" u = w.price * price_term s "d" v := by
    have e1 := hobj_eq
    rw [objective_value_active s "d" w u (ne_of_gt hwp) (ne_of_gt hwc) hwr,
      objective_value_active s "d" w v (ne_of_gt hwp) (ne_of_gt hwc) hwr] at e1
    linarith
  have hterm_c : w.carbon * carbon_term s "d" u = w.carbon * carbon_term s "d" v := by
    have e1 := hobj_eq
    rw [objective_value_active s "d" w u (ne_of_gt hwp) (ne_of_gt hwc) hwr,
      objective_value_active s "d" w v (ne_of_gt hwp) (ne_of_gt hwc) hwr] at e1
    linarith
  have hpc : price_contr s v = ∑ k in Finset.range s.tau, u.xi k * prices_param s k := by
    unfold price_contr
    refine Finset.sum_congr rfl ?_
    intro k hk
    rw [show prices_param s k = s.prices k from
      clip0_of_nonneg _ (hp k (Finset.mem_range.mp hk))]
  have hcc : carbon_contr s v =
      ∑ k in Finset.range s.tau, u.xi k * carbon_intensities_param s k := by
    unfold carbon_contr
    refine Finset.sum_congr rfl ?_
    intro k hk
    rw [show carbon_intensities_param s k = s.carbon_intensities k from
      clip0_of_nonneg _ (hc k (Finset.mem_range.mp hk))]
  rw [obj_check, if_pos ⟨ne_of_gt hwp, ne_of_gt hwc, hwr⟩]
  congr 1
  rw [objective_value_active s "d" w v (ne_of_gt hwp) (ne_of_gt hwc) hwr]
  have hfinal_p : w.price * (price_contr s v / max (price_without s "d") 1) =
      w.price * price_term s "d" v := by
    rw [hpc, ← price_term_d s u, hterm_p]
  have hfinal_c : w.carbon * (carbon_contr s v / max (carbon_without s "d") 1) =
      w.carbon * carbon_term s "d" v := by
    rw [hcc, ← carbon_term_d s u, hterm_c]
  have hfinal_r : w.ramping * (ramp_contr s v / max (ramp_without s) 1) =
      w.ramping * ramp_term s v := rfl
  rw [hfinal_p, hfinal_c, hfinal_r]

/-- C5 counterexample: the recombination check can differ from the
optimized objective value.  In building clip mode the objective uses
per-building clipped flows while the check re-clips at district level
(`2/3` versus `1/3` on `c5envB`); in district mode a negative price input
is clipped inside the LP but used raw by the check (`0` versus `-2/3` on
`c5envD`). -/
theorem C5_counterexample :
    ¬ ObjCheckMatchesOptimal c5envB "b" wEven ∧
    ¬ ObjCheckMatchesOptimal c5envD "d" wEven := by
  have hwne : wEven.price ≠ 0 ∧ wEven.carbon ≠ 0 ∧ wEven.ramping ≠ 0 := by
    norm_num [wEven]
  constructor
  · intro hmatch
    have hpw : price_without c5envB "b" = 2 := by
      rw [price_without, if_neg (by decide)]
      norm_num [building_power_flows_without, elec_loads_param, solar_gens_param,
        prices_param, clip0, c5envB, Finset.sum_range_succ, Finset.sum_range_zero, max_def]
    have hcw : carbon_without c5envB "b" = 2 := by
      rw [carbon_without, if_neg (by decide)]
      norm_num [building_power_flows_without, elec_loads_param, solar_gens_param,
        carbon_intensities_param, clip0, c5envB, Finset.sum_range_succ,
        Finset.sum_range_zero, max_def]
    have hrw : ramp_without c5envB = 0 := by
      norm_num [ramp_without, c5envB, Finset.sum_range_zero]
    have hov : ∀ u' : LPSol, objective_value c5envB "b" wEven u' =
        (u'.bxi 0 0 + u'.bxi 1 0) / 3 := by
      intro u'
      rw [objective_value_active _ _ _ _ hwne.1 hwne.2.1 hwne.2.2]
      rw [price_term, if_neg (by decide), carbon_term, if_neg (by decide)]
      rw [hpw, hcw]
      unfold ramp_term
      rw [hrw]
      norm_num [Finset.sum_range_succ, Finset.sum_range_zero, prices_param,
        carbon_intensities_param, clip0, c5envB, wEven, max_def]
      ring
    have hfeasB : Feasible c5envB "b" wEven c5solB := by
      refine ⟨?_, ⟨?_, ?_⟩, ?_, ?_, ?_⟩
      · intro i _ k _
        norm_num [c5solB]
      · intro i _
        constructor <;>
          norm_num [c5solB, current_socs_param, clip0, c5envB, max_def]
      · intro i _ k _ _
        constructor <;> norm_num [c5solB, c5envB]
      · intro i _ k _
        constructor <;> norm_num [c5solB, c5envB]
      · intro i _ k _
        norm_num [c5solB, c5envB]
      · intro _
        rw [AuxVarOK, if_neg (by decide)]
        intro i hi k hk
        have hi2 : i < 2 := hi
        have hk1 : k < 1 := hk
        interval_cases i <;> interval_cases k <;>
          constructor <;>
            norm_num [c5solB, c5envB, building_power_flows, elec_loads_param,
              solar_gens_param, clip0, max_def]
    have hoptB : IsOptimal c5envB "b" wEven c5solB := by
      refine ⟨hfeasB, ?_⟩
      intro u hu
      have haux := hu.2.2.2.2 (Or.inl hwne.1)
      rw [AuxVarOK, if_neg (by decide)] at haux
      have h0 := haux 0 (by norm_num [c5envB]) 0 (by norm_num [c5envB])
      have h1 := haux 1 (by norm_num [c5envB]) 0 (by norm_num [c5envB])
      have hf0 : building_power_flows c5envB u 0 0 = 2 := by
        norm_num [building_power_flows, c5envB, elec_loads_param, solar_gens_param,
          clip0, max_def]
      have hf1 : building_power_flows c5envB u 1 0 = -1 := by
        norm_num [building_power_flows, c5envB, elec_loads_param, solar_gens_param,
          clip0, max_def]
      rw [hf0] at h0
      rw [hf1] at h1
      rw [hov c5solB, hov u]
      norm_num [c5solB]
      linarith [h0.1, h0.2, h1.1]
    have hchk : obj_check c5envB "b" wEven c5solB = .ok (1/3) := by
      rw [obj_check, if_pos hwne]
      have hegrid : e_grids c5envB c5solB 0 = 1 := by
        norm_num [e_grids, c5envB, c5solB, elec_loads_param, solar_gens_param,
          clip0, Finset.sum_range_succ, Finset.sum_range_zero, max_def]
      have htauB : c5envB.tau = 1 := rfl
      have hpcontr : price_contr c5envB c5solB = 1 := by
        rw [price_contr, htauB, Finset.sum_range_succ, Finset.sum_range_zero, hegrid]
        norm_num [clip0, max_def, c5envB]
      have hccontr : carbon_contr c5envB c5solB = 1 := by
        rw [carbon_contr, htauB, Finset.sum_range_succ, Finset.sum_range_zero, hegrid]
        norm_num [clip0, max_def, c5envB]
      have hrcontr : ramp_contr c5envB c5solB = 0 := by
        norm_num [ramp_contr, c5envB, Finset.sum_range_zero]
      rw [hpcontr, hccontr, hrcontr, hpw, hcw, hrw]
      norm_num [wEven, max_def]
    have hcontr := hmatch c5solB hoptB
    rw [hchk, hov c5solB] at hcontr
    norm_num [c5solB] at hcontr
  · intro hmatch
    have hov : ∀ u' : LPSol, objective_value c5envD "d" wEven u' = 0 := by
      intro u'
      rw [objective_value_active _ _ _ _ hwne.1 hwne.2.1 hwne.2.2]
      rw [price_term_d, carbon_term_d]
      norm_num [Finset.sum_range_succ, Finset.sum_range_zero, prices_param,
        carbon_intensities_param, clip0, c5envD, max_def, ramp_term, ramp_without, wEven]
    have hfeasD : Feasible c5envD "d" wEven c5solD := by
      refine ⟨?_, ⟨?_, ?_⟩, ?_, ?_, ?_⟩
      · intro i _ k _
        norm_num [c5solD]
      · intro i _
        constructor <;>
          norm_num [c5solD, current_socs_param, clip0, c5envD, max_def]
      · intro i _ k _ _
        constructor <;> norm_num [c5solD, c5envD]
      · intro i _ k _
        constructor <;> norm_num [c5solD, c5envD]
      · intro i _ k _
        norm_num [c5solD, c5envD]
      · intro _
        rw [AuxVarOK, if_pos rfl]
        intro k hk
        have hk1 : k < 1 := hk
        interval_cases k
        constructor
        · norm_num [c5solD]
        · have : e_grids c5envD c5solD 0 = 2 := by
            norm_num [e_grids, c5envD, c5solD, elec_loads_param, solar_gens_param,
              clip0, Finset.sum_range_succ, Finset.sum_range_zero, max_def]
          rw [this]
          norm_num [c5solD]
    have hoptD : IsOptimal c5envD "d" wEven c5solD :=
      ⟨hfeasD, fun u hu => by rw [hov c5solD, hov u]⟩
    have hchkD : obj_check c5envD "d" wEven c5solD = .ok (-(2/3)) := by
      rw [obj_check, if_pos hwne]
      have hegrid : e_grids c5envD c5solD 0 = 2 := by
        norm_num [e_grids, c5envD, c5solD, elec_loads_param, solar_gens_param,
          clip0, Finset.sum_range_succ, Finset.sum_range_zero, max_def]
      have hpw : price_without c5envD "d" = 0 := by
        rw [price_without, if_pos rfl]
        norm_num [e_grids_without, c5envD, elec_loads_param, solar_gens_param,
          prices_param, clip0, Finset.sum_range_succ, Finset.sum_range_zero, max_def]
      have hcw : carbon_without c5envD "d" = 0 := by
        rw [carbon_without, if_pos rfl]
        norm_num [e_grids_without, c5envD, elec_loads_param, solar_gens_param,
          carbon_intensities_param, clip0, Finset.sum_range_succ,
          Finset.sum_range_zero, max_def]
      have hrw : ramp_without c5envD = 0 := by
        norm_num [ramp_without, c5envD, Finset.sum_range_zero]
      have htauD : c5envD.tau = 1 := rfl
      have hpcontr : price_contr c5envD c5solD = -2 := by
        rw [price_contr, htauD, Finset.sum_range_succ, Finset.sum_range_zero, hegrid]
        norm_num [clip0, max_def, c5envD]
      have hccontr : carbon_contr c5envD c5solD = 0 := by
        rw [carbon_contr, htauD, Finset.sum_range_succ, Finset.sum_range_zero, hegrid]
        norm_num [clip0, max_def, c5envD]
      have hrcontr : ramp_contr c5envD c5solD = 0 := by
        norm_num [ramp_contr, c5envD, Finset.sum_range_zero]
      rw [hpcontr, hccontr, hrcontr, hpw, hcw, hrw]
      norm_num [wEven, max_def]
    have hcontr := hmatch c5solD hoptD
    rw [hchkD, hov c5solD] at hcontr
    norm_num at hcontr

/-- C5 witness: the amended recombination identity evaluated at the
concrete optimum of the nonnegative district-mode bundle `c5envW`. -/
theorem C5_obj_check_matches_witness :
    obj_check c5envW "d" wWit c5solW = .ok (objective_value c5envW "d" wWit c5solW) := by
  have hwne : wWit.price ≠ 0 ∧ wWit.carbon ≠ 0 ∧ wWit.ramping ≠ 0 := by
    norm_num [wWit]
  have hegrid : ∀ u' : LPSol, e_grids c5envW u' 0 = 1 := by
    intro u'
    norm_num [e_grids, c5envW, elec_loads_param, solar_gens_param, clip0,
      Finset.sum_range_succ, Finset.sum_range_zero, max_def]
  have hpw : price_without c5envW "d" = 1 := by
    rw [price_without, if_pos rfl]
    norm_num [e_grids_without, c5envW, elec_loads_param, solar_gens_param,
      prices_param, clip0, Finset.sum_range_succ, Finset.sum_range_zero, max_def]
  have hcw : carbon_without c5envW "d" = 1 := by
    rw [carbon_without, if_pos rfl]
    norm_num [e_grids_without, c5envW, elec_loads_param, solar_gens_param,
      carbon_intensities_param, clip0, Finset.sum_range_succ,
      Finset.sum_range_zero, max_def]
  have hrw : ramp_without c5envW = 0 := by
    norm_num [ramp_without, c5envW, Finset.sum_range_zero]
  have hov : ∀ u' : LPSol, objective_value c5envW "d" wWit u' = 3/4 * u'.xi 0 := by
    intro u'
    rw [objective_value_active _ _ _ _ hwne.1 hwne.2.1 hwne.2.2]
    rw [price_term_d, carbon_term_d, hpw, hcw]
    unfold ramp_term
    rw [hrw]
    have htau : c5envW.tau = 1 := rfl
    rw [htau]
    norm_num [Finset.sum_range_succ, Finset.sum_range_zero, prices_param,
      carbon_intensities_param, clip0, c5envW, wWit, max_def]
    ring
  apply C5_obj_check_matches
  · intro k _
    norm_num [c5envW]
  · intro k _
    norm_num [c5envW]
  · norm_num [wWit]
  · norm_num [wWit]
  · norm_num [wWit]
  · constructor
    · refine ⟨?_, ⟨?_, ?_⟩, ?_, ?_, ?_⟩
      · intro i _ k _
        norm_num [c5solW]
      · intro i _
        constructor <;>
          norm_num [c5solW, current_socs_param, clip0, c5envW, max_def]
      · intro i _ k _ _
        constructor <;> norm_num [c5solW, c5envW]
      · intro i _ k _
        constructor <;> norm_num [c5solW, c5envW]
      · intro i _ k _
        norm_num [c5solW, c5envW]
      · intro _
        rw [AuxVarOK, if_pos rfl]
        intro k hk
        have hk1 : k < 1 := hk
        interval_cases k
        refine ⟨by norm_num [c5solW], ?_⟩
        rw [hegrid c5solW]
        norm_num [c5solW]
    · intro u hu
      have haux := hu.2.2.2.2 (Or.inl hwne.1)
      rw [AuxVarOK, if_pos rfl] at haux
      have h0 := haux 0 (by norm_num [c5envW])
      rw [hegrid u] at h0
      rw [hov c5solW, hov u]
      have hxiW : c5solW.xi 0 = 1 := rfl
      rw [hxiW]
      linarith [h0.2]
